import Mathlib

/-!
Shallow embedding of the firmware-synchronization subsystem of `src/app.py`
(class `FirmwareManager` and its helpers).

Modelling conventions:
- Bytes are `Nat`; file contents are `List Nat`; an on-disk file carries its
  content and an mtime (`FileData`).
- The filesystem visible to one manager is the triple of its artifact file
  (`firmware_path`), its sidecar metadata file (`metadata_path`) and the
  temporary file (`firmware_path + ".tmp"`), each `Option`al (`FS`).
- Times (`time.time()` values) are `Int`; ISO timestamps are `String`s.
- Network effects are passed in as explicit environment values: the release
  API answer is an `Except String ReleaseData` (transport error message or
  parsed JSON), and the asset download is a `StreamOutcome`.
- SHA-256 is abstracted as an arbitrary `hashFn : List Nat → String`
  parameter; no claim depends on properties of the digest beyond which value
  is stored where.
- The Python lock acquisitions in `download_firmware` are modelled by making
  the test-and-set of `is_checking` a single atomic step of the transition
  function, which is exactly what the `with firmware_lock:` block guarantees.
-/

/-- Parsed `assets[]` entry of the GitHub release JSON. -/
structure Asset where
  name : String
  browser_download_url : String
  size : Nat
  deriving Repr, DecidableEq

/-- Parsed release JSON returned by `GET /repos/{owner}/{repo}/releases/latest`. -/
structure ReleaseData where
  tag_name : String
  published_at : String
  body : String
  prerelease : Bool
  assets : List Asset
  deriving Repr, DecidableEq

/-- The dict built by `FirmwareManager.get_latest_release_info` on success
(`src/app.py` lines 111-118). -/
structure ReleaseInfo where
  version : String
  published_at : String
  download_url : String
  size : Nat
  release_notes : String
  prerelease : Bool
  deriving Repr, DecidableEq

/-- Static per-manager configuration (`FirmwareManager.__init__` arguments plus
the constant `check_interval = 3600`). -/
structure Config where
  bot_name : String
  repo_owner : String
  repo_name : String
  asset_name : String
  check_interval : Int
  deriving Repr, DecidableEq

/-- A file on disk: its byte content and its modification time. -/
structure FileData where
  content : List Nat
  mtime : Int
  deriving Repr, DecidableEq

/-- The metadata dict written by `download_firmware` (`src/app.py` lines 199-207). -/
structure Metadata where
  version : String
  downloaded_at : String
  last_check : Int
  size : Nat
  hash : String
  release_notes : String
  prerelease : Bool
  deriving Repr, DecidableEq

/-- The slice of the filesystem a single manager touches: the artifact file at
`self.firmware_path`, the sidecar at `self.metadata_path`, and the temp file at
`self.firmware_path + ".tmp"`. -/
structure FS where
  firmware : Option FileData
  metadata : Option Metadata
  temp : Option FileData
  deriving Repr, DecidableEq

/-- Mutable in-memory per-manager state (`self.last_check_time`,
`self.current_version`, `self.is_checking`). -/
structure ManagerState where
  last_check_time : Int
  current_version : Option String
  is_checking : Bool
  deriving Repr, DecidableEq

/-- Result of `get_latest_release_info`: the `(info, error)` pair collapsed
into an `Except`, plus whether an HTTP request to the release API was issued
(false only on the placeholder-configuration early return). -/
structure FetchOutcome where
  result : Except String ReleaseInfo
  queried : Bool
  deriving Repr

/-- `FirmwareManager.get_latest_release_info` (`src/app.py` lines 87-123).
The placeholder guard is `owner in ["your_github_username"] and
repo == "your_github_repository"`; otherwise one API request is issued, whose
outcome `net` the environment supplies; the asset list is scanned for the
first entry named `asset_name`. -/
def get_latest_release_info (cfg : Config) (net : Except String ReleaseData) :
    FetchOutcome :=
  if ["your_github_username"].contains cfg.repo_owner
      && (cfg.repo_name == "your_github_repository") then
    { result := .error "Repository configuration not set", queried := false }
  else
    match net with
    | .error e => { result := .error ("Network error: " ++ e), queried := true }
    | .ok rd =>
      match rd.assets.find? (fun a => a.name == cfg.asset_name) with
      | none =>
        { result := .error ("Firmware asset \x27" ++ cfg.asset_name
            ++ "\x27 not found in latest release"),
          queried := true }
      | some a =>
        { result := .ok
            { version := rd.tag_name
              published_at := rd.published_at
              download_url := a.browser_download_url
              size := a.size
              release_notes := rd.body
              prerelease := rd.prerelease },
          queried := true }

/-- Result of `needs_update`: the updated in-memory state, the returned triple
`(needs, reason, release_info)`, and whether the release API was queried. -/
structure CheckOutcome where
  state : ManagerState
  needs : Bool
  reason : String
  info : Option ReleaseInfo
  queried : Bool
  deriving Repr

/-- `FirmwareManager.needs_update` (`src/app.py` lines 125-151). `now` is
`time.time()`; `fs.firmware.isSome` is `os.path.exists(self.firmware_path)`;
the Python truthiness test `if not self.current_version` is rendered by the
`none` and `some ""` branches. `self.last_check_time` is assigned only after
the fetch-error early return. -/
def needs_update (cfg : Config) (fs : FS) (st : ManagerState) (now : Int)
    (net : Except String ReleaseData) : CheckOutcome :=
  if now - st.last_check_time < cfg.check_interval then
    { state := st, needs := false, reason := "Recently checked", info := none,
      queried := false }
  else
    let fo := get_latest_release_info cfg net
    match fo.result with
    | .error e =>
      { state := st, needs := false, reason := e, info := none,
        queried := fo.queried }
    | .ok info =>
      let st1 : ManagerState := { st with last_check_time := now }
      if fs.firmware.isNone then
        { state := st1, needs := true, reason := "No local firmware found",
          info := some info, queried := fo.queried }
      else
        match st.current_version with
        | none =>
          { state := st1, needs := true, reason := "Unknown local version",
            info := some info, queried := fo.queried }
        | some v =>
          if v = "" then
            { state := st1, needs := true, reason := "Unknown local version",
              info := some info, queried := fo.queried }
          else if v ≠ info.version then
            { state := st1, needs := true,
              reason := "New version available: " ++ info.version
                ++ " (current: " ++ v ++ ")",
              info := some info, queried := fo.queried }
          else
            { state := st1, needs := false, reason := "Up to date",
              info := some info, queried := fo.queried }

/-- Outcome of `requests.get(download_url, stream=True)` plus the chunk
iteration: the connection may fail outright, the stream may deliver some
chunks and then raise, or it may deliver all its chunks. -/
inductive StreamOutcome where
  | ok (chunks : List (List Nat))
  | connectFail (msg : String)
  | failAfter (chunks : List (List Nat)) (msg : String)
  deriving Repr, DecidableEq

/-- The chunk-writing loop of `download_firmware` (`src/app.py` lines 178-183):
each non-empty chunk is appended to the temp file and counted into
`downloaded_size`. Returns (temp file content, downloaded_size). -/
def streamWrite (chunks : List (List Nat)) : List Nat × Nat :=
  chunks.foldl
    (fun acc c => if c ≠ [] then (acc.1 ++ c, acc.2 + c.length) else acc)
    ([], 0)

/-- Content the stream would write in total (statement-side helper). -/
def streamContent : StreamOutcome → List Nat
  | .ok chunks => (streamWrite chunks).1
  | .connectFail _ => []
  | .failAfter chunks _ => (streamWrite chunks).1

/-- Environment of one `download_firmware` call: the release-API answer (used
only when no `release_info` argument is supplied), the asset-download stream,
`time.time()` and `datetime.now().isoformat()` at the metadata-building step. -/
structure DLEnv where
  net : Except String ReleaseData
  stream : StreamOutcome
  now : Int
  nowIso : String
  deriving Repr

/-- The `if not release_info:` prelude of `download_firmware`
(`src/app.py` lines 162-165): use the argument when given, else fetch. -/
def resolveRelease (cfg : Config) (relArg : Option ReleaseInfo)
    (net : Except String ReleaseData) : Except String ReleaseInfo :=
  match relArg with
  | some ri => .ok ri
  | none => (get_latest_release_info cfg net).result

/-- Final state of one `download_firmware` call: filesystem, in-memory manager
state, and the returned `(success, message)` pair. -/
structure DownloadResult where
  fs : FS
  state : ManagerState
  success : Bool
  message : String
  deriving Repr

/-- `FirmwareManager.download_firmware` (`src/app.py` lines 153-230) as a
transition function from (filesystem, manager state) to `DownloadResult`.
The initial test-and-set of `is_checking` under `firmware_lock` is one atomic
step; every path that set the flag clears it on return (the `finally` block);
every `except` path removes the temp file if present (lines 218-226). -/
def download_firmware (cfg : Config) (hashFn : List Nat → String) (fs : FS)
    (st : ManagerState) (relArg : Option ReleaseInfo) (env : DLEnv) :
    DownloadResult :=
  if st.is_checking then
    { fs := fs, state := st, success := false,
      message := "Download already in progress" }
  else
    let st1 : ManagerState := { st with is_checking := true }
    match resolveRelease cfg relArg env.net with
    | .error e =>
      -- early `return False, error`: no exception raised, so the temp-file
      -- cleanup of the `except` block does not run; `finally` clears the flag
      { fs := fs, state := { st1 with is_checking := false },
        success := false, message := e }
    | .ok ri =>
      match env.stream with
      | .connectFail msg =>
        -- `requests.get` raised before the temp file was opened; the handler
        -- still unlinks a pre-existing temp file if one is on disk
        { fs := { fs with temp := none },
          state := { st1 with is_checking := false },
          success := false, message := "Download failed: " ++ msg }
      | .failAfter _ msg =>
        -- the chunk loop raised after writing part of the temp file; the
        -- handler unlinks it
        { fs := { fs with temp := none },
          state := { st1 with is_checking := false },
          success := false, message := "Download failed: " ++ msg }
      | .ok chunks =>
        let written := streamWrite chunks
        if written.2 ≠ ri.size then
          -- size verification failed: `os.unlink(temp_path)` then return
          { fs := { fs with temp := none },
            state := { st1 with is_checking := false },
            success := false,
            message := "Download incomplete: " ++ toString written.2 ++ "/"
              ++ toString ri.size ++ " bytes" }
        else
          -- hash the temp file, unlink any previous artifact, rename the
          -- temp file into place, write the metadata sidecar
          let h := hashFn written.1
          let meta : Metadata :=
            { version := ri.version
              downloaded_at := env.nowIso
              last_check := env.now
              size := ri.size
              hash := h
              release_notes := ri.release_notes
              prerelease := ri.prerelease }
          { fs := { firmware := some { content := written.1, mtime := env.now }
                    metadata := some meta
                    temp := none },
            state := { st1 with
                         current_version := some ri.version
                         is_checking := false },
            success := true,
            message := "Downloaded version " ++ ri.version }

/-- Filesystem snapshots along the straight-line success path of
`download_firmware`, one per mutation step: the state before the temp file is
opened, after creating the empty temp file and after each chunk append
(lines 179-183), after `os.unlink(self.firmware_path)` (lines 194-195), after
`os.rename(temp_path, self.firmware_path)` (line 196), and after
`_save_metadata` (line 208). An execution interrupted at any step observes
exactly one element of this list. When no artifact pre-exists the unlink is
skipped and the corresponding snapshot coincides with its predecessor. -/
def download_snapshots (fs0 : FS) (chunks : List (List Nat)) (mt : Int)
    (newMeta : Metadata) : List FS :=
  let full : List Nat := (streamWrite chunks).1
  fs0 ::
    (List.range (chunks.length + 1)).map
      (fun i =>
        { fs0 with
            temp := some { content := (streamWrite (chunks.take i)).1,
                           mtime := mt } })
    ++ [{ fs0 with temp := some { content := full, mtime := mt },
                   firmware := none },
        { fs0 with temp := none,
                   firmware := some { content := full, mtime := mt } },
        { fs0 with temp := none,
                   firmware := some { content := full, mtime := mt },
                   metadata := some newMeta }]

/-- The status dict assembled by `FirmwareManager.get_status`
(`src/app.py` lines 256-282); `file_size`/`file_modified` and the `latest_*`
keys are present only conditionally, modelled as `Option`s. -/
structure StatusReport where
  local_firmware_exists : Bool
  current_version : Option String
  last_check : Int
  is_checking : Bool
  repo : String
  asset_name : String
  file_size : Option Nat
  file_modified : Option Int
  needs_update : Bool
  update_reason : String
  latest_version : Option String
  latest_published : Option String
  latest_prerelease : Option Bool
  deriving Repr

/-- `FirmwareManager.get_status` (`src/app.py` lines 256-282). The base dict is
built first — its `last_check` entry reads `self.last_check_time` before the
embedded `needs_update` call can update it — then `needs_update` runs and its
triple fills `needs_update`, `update_reason` and the `latest_*` keys. Returns
the possibly updated manager state together with the report; the function is
total, so no input makes it fail. -/
def get_status (cfg : Config) (fs : FS) (st : ManagerState) (now : Int)
    (net : Except String ReleaseData) : ManagerState × StatusReport :=
  let co := needs_update cfg fs st now net
  (co.state,
    { local_firmware_exists := fs.firmware.isSome
      current_version := st.current_version
      last_check := st.last_check_time
      is_checking := st.is_checking
      repo := cfg.repo_owner ++ "/" ++ cfg.repo_name
      asset_name := cfg.asset_name
      file_size := fs.firmware.map (fun fd => fd.content.length)
      file_modified := fs.firmware.map (fun fd => fd.mtime)
      needs_update := co.needs
      update_reason := co.reason
      latest_version := co.info.map (fun i => i.version)
      latest_published := co.info.map (fun i => i.published_at)
      latest_prerelease := co.info.map (fun i => i.prerelease) })

/-- The update-decision rules as the spec states them (§4.3, amended to the
code's capitalized reason strings and to treating an empty local version as
unknown), written independently of `needs_update` for comparison: rule 1
interval throttle, rule 2 fetch failure, rule 3 no local artifact, rule 4
unknown local version, rule 5 exact string inequality, rule 6 up to date. -/
def decide_spec (cfg : Config) (fs : FS) (st : ManagerState) (now : Int)
    (net : Except String ReleaseData) : Bool × String × Option ReleaseInfo :=
  if now - st.last_check_time < cfg.check_interval then
    (false, "Recently checked", none)
  else
    match (get_latest_release_info cfg net).result with
    | .error e => (false, e, none)
    | .ok info =>
      if fs.firmware.isNone then
        (true, "No local firmware found", some info)
      else if st.current_version = none ∨ st.current_version = some "" then
        (true, "Unknown local version", some info)
      else if st.current_version.getD "" ≠ info.version then
        (true, "New version available: " ++ info.version
          ++ " (current: " ++ st.current_version.getD "" ++ ")", some info)
      else
        (false, "Up to date", some info)

/-! ### Concrete fixtures (from `FIRMWARE_REPOS` and small sample data) -/

/-- The `BonicBotS1` entry of `FIRMWARE_REPOS` (`src/app.py` lines 16-20). -/
def cfgS1 : Config :=
  { bot_name := "BonicBotS1"
    repo_owner := "Autobonics"
    repo_name := "bonicbot-firmware-mainPCB"
    asset_name := "mainPCB.bin"
    check_interval := 3600 }

/-- A configuration whose owner is the placeholder value but whose repo name
is a real one. -/
def cfgPlaceholderOwner : Config :=
  { cfgS1 with repo_owner := "your_github_username" }

/-- Filesystem with no artifact, no metadata, no temp file. -/
def fsEmpty : FS := { firmware := none, metadata := none, temp := none }

/-- Filesystem holding a previous two-byte artifact. -/
def fsWithOld : FS :=
  { firmware := some { content := [1, 1], mtime := 0 }
    metadata := none
    temp := none }

/-- Fresh manager state: never checked, unknown version, idle. -/
def stFresh : ManagerState :=
  { last_check_time := 0, current_version := none, is_checking := false }

/-- Manager state whose cached version is the empty string. -/
def stEmptyVer : ManagerState := { stFresh with current_version := some "" }

/-- Manager state with a download already in progress. -/
def stBusy : ManagerState := { stFresh with is_checking := true }

/-- A sample parsed release JSON carrying a 4-byte `mainPCB.bin` asset. -/
def rdSample : ReleaseData :=
  { tag_name := "v1.2.0"
    published_at := "2024-01-01T00:00:00Z"
    body := "notes"
    prerelease := false
    assets := [{ name := "mainPCB.bin"
                 browser_download_url := "https://example.com/mainPCB.bin"
                 size := 4 }] }

/-- The `ReleaseInfo` that `get_latest_release_info` extracts from `rdSample`. -/
def riSample : ReleaseInfo :=
  { version := "v1.2.0"
    published_at := "2024-01-01T00:00:00Z"
    download_url := "https://example.com/mainPCB.bin"
    size := 4
    release_notes := "notes"
    prerelease := false }

/-- A stand-in content hash function for concrete witnesses. -/
def hashLen (l : List Nat) : String := toString l.length

/-- Environment of a fully successful download: fetch succeeds and the stream
delivers exactly the expected four bytes. -/
def envOk : DLEnv :=
  { net := .ok rdSample
    stream := .ok [[9, 9], [9, 9]]
    now := 4000
    nowIso := "2024-01-01T01:06:40" }

/-- Environment whose release-API fetch fails with a transport error. -/
def envFetchFail : DLEnv :=
  { envOk with net := .error "boom" }

/-- Environment whose asset stream delivers one byte instead of four. -/
def envShort : DLEnv :=
  { envOk with stream := .ok [[9]] }

/-! ### Theorems -/

/-- C2 (counterexample): rule 1 of `needs_update` returns the reason string
`"Recently checked"`, capitalized — not the `"recently checked"` the claim
states (and likewise for the other rules). -/
theorem needs_update_reason_is_capitalized :
    (needs_update cfgS1 fsEmpty stFresh 0 (Except.error "x")).reason
        = "Recently checked"
    ∧ "Recently checked" ≠ "recently checked" :=
  ⟨rfl, by decide⟩

/-- C2 (amended): `needs_update` implements exactly the six decision rules in
order, with the code's capitalized reason strings and with an empty-string
local version treated as unknown; when rule 1 (the interval throttle) applies,
the release source is not queried at all. -/
theorem needs_update_follows_decision_rules (cfg : Config) (fs : FS)
    (st : ManagerState) (now : Int) (net : Except String ReleaseData) :
    ((needs_update cfg fs st now net).needs,
      (needs_update cfg fs st now net).reason,
      (needs_update cfg fs st now net).info)
        = decide_spec cfg fs st now net
    ∧ (now - st.last_check_time < cfg.check_interval →
        (needs_update cfg fs st now net).queried = false) := by
  constructor
  · unfold needs_update decide_spec
    split
    · rfl
    · cases hres : (get_latest_release_info cfg net).result with
      | error e => simp [hres]
      | ok info =>
        simp only [hres]
        by_cases hfw : fs.firmware.isNone
        · simp [hfw]
        · cases hcv : st.current_version with
          | none => simp [hfw, hcv]
          | some v =>
            by_cases hv : v = ""
            · simp [hfw, hcv, hv]
            · by_cases hne : v = info.version
              · have hv2 : ¬info.version = "" := hne ▸ hv
                simp [hfw, hcv, hv, hne, hv2]
              · simp [hfw, hcv, hv, hne]
  · intro h
    unfold needs_update
    simp [h]

/-- C2 (witness): the decision-rule refinement and the rule-1 no-query
guarantee, evaluated on a concrete recently-checked state. -/
theorem needs_update_follows_decision_rules_witness :
    ((needs_update cfgS1 fsEmpty stFresh 0 (Except.error "x")).needs,
      (needs_update cfgS1 fsEmpty stFresh 0 (Except.error "x")).reason,
      (needs_update cfgS1 fsEmpty stFresh 0 (Except.error "x")).info)
        = decide_spec cfgS1 fsEmpty stFresh 0 (Except.error "x")
    ∧ (0 : Int) - stFresh.last_check_time < cfgS1.check_interval
    ∧ (needs_update cfgS1 fsEmpty stFresh 0 (Except.error "x")).queried
        = false :=
  ⟨(needs_update_follows_decision_rules cfgS1 fsEmpty stFresh 0
      (Except.error "x")).1,
   by decide,
   (needs_update_follows_decision_rules cfgS1 fsEmpty stFresh 0
      (Except.error "x")).2 (by decide)⟩

/-- C7 (counterexample): with `last_check_time = 0`, `now = 5000` and a failing
fetch, rule 1 does not short-circuit (the reason is the network error), yet
`last_check_time` is still `0` afterwards — the code updates it only after the
fetch-error early return, so a failing fetch does not update it. -/
theorem needs_update_fetch_error_keeps_last_check :
    (needs_update cfgS1 fsEmpty stFresh 5000 (Except.error "boom")).reason
        = "Network error: boom"
    ∧ (needs_update cfgS1 fsEmpty stFresh 5000
        (Except.error "boom")).state.last_check_time = 0
    ∧ (0 : Int) ≠ 5000 :=
  ⟨rfl, rfl, by decide⟩

/-- C7 (amended): `needs_update` updates the manager's last-check timestamp to
`now` exactly when rule 1 does not short-circuit and the fetch succeeds; when
rule 1 applies or the fetch fails, the timestamp is left unchanged. -/
theorem needs_update_last_check_characterization (cfg : Config) (fs : FS)
    (st : ManagerState) (now : Int) (net : Except String ReleaseData) :
    (needs_update cfg fs st now net).state.last_check_time =
      if now - st.last_check_time < cfg.check_interval then
        st.last_check_time
      else
        match (get_latest_release_info cfg net).result with
        | .error _ => st.last_check_time
        | .ok _ => now := by
  unfold needs_update
  split
  · rfl
  · cases hres : (get_latest_release_info cfg net).result with
    | error e => simp [hres]
    | ok info =>
      simp only [hres]
      by_cases hfw : fs.firmware.isNone
      · simp [hfw]
      · cases hcv : st.current_version with
        | none => simp [hfw, hcv]
        | some v =>
          by_cases hv : v = ""
          · simp [hfw, hcv, hv]
          · by_cases hne : v = info.version
            · have hv2 : ¬info.version = "" := hne ▸ hv
              simp [hfw, hcv, hv, hne, hv2]
            · simp [hfw, hcv, hv, hne]

/-- C10: when the throttle does not apply, the fetch succeeds and a local
artifact exists, a cached version equal to the empty string is treated as
unknown — the decision is `(true, "Unknown local version")`, not a string
comparison against the release version. -/
theorem needs_update_empty_version_is_unknown (cfg : Config) (fs : FS)
    (st : ManagerState) (now : Int) (net : Except String ReleaseData)
    (info : ReleaseInfo)
    (hthr : ¬now - st.last_check_time < cfg.check_interval)
    (hfetch : (get_latest_release_info cfg net).result = Except.ok info)
    (hfw : fs.firmware.isSome)
    (hcv : st.current_version = some "") :
    (needs_update cfg fs st now net).needs = true
    ∧ (needs_update cfg fs st now net).reason = "Unknown local version"
    ∧ (needs_update cfg fs st now net).info = some info := by
  unfold needs_update
  have hfw2 : ¬fs.firmware.isNone = true := by
    simp [Option.isNone_iff_eq_none]
    intro h
    rw [h] at hfw
    simp at hfw
  simp [hthr, hfetch, hcv, hfw2]

/-- C10 (witness): a manager whose cached version is `""` with a local
artifact present, a stale last-check and a successful fetch decides
"Unknown local version". -/
theorem needs_update_empty_version_is_unknown_witness :
    ¬(4000 : Int) - stEmptyVer.last_check_time < cfgS1.check_interval
    ∧ (get_latest_release_info cfgS1 (Except.ok rdSample)).result
        = Except.ok riSample
    ∧ fsWithOld.firmware.isSome = true
    ∧ stEmptyVer.current_version = some ""
    ∧ (needs_update cfgS1 fsWithOld stEmptyVer 4000
        (Except.ok rdSample)).needs = true
    ∧ (needs_update cfgS1 fsWithOld stEmptyVer 4000
        (Except.ok rdSample)).reason = "Unknown local version"
    ∧ (needs_update cfgS1 fsWithOld stEmptyVer 4000
        (Except.ok rdSample)).info = some riSample := by
  refine ⟨by decide, rfl, rfl, rfl, ?_⟩
  have h := needs_update_empty_version_is_unknown cfgS1 fsWithOld stEmptyVer
    4000 (Except.ok rdSample) riSample (by decide) rfl rfl rfl
  exact ⟨h.1, h.2.1, h.2.2⟩

/-- C9 (counterexample): with the owner set to the placeholder
`"your_github_username"` but a real repo name, `get_latest_release_info` does
not fail with the configuration error — it issues the network query and
succeeds — because the code requires BOTH owner and repo to be placeholders. -/
theorem config_placeholder_owner_only_not_rejected :
    cfgPlaceholderOwner.repo_owner = "your_github_username"
    ∧ (get_latest_release_info cfgPlaceholderOwner
        (Except.ok rdSample)).queried = true
    ∧ (get_latest_release_info cfgPlaceholderOwner
        (Except.ok rdSample)).result = Except.ok riSample :=
  ⟨rfl, rfl, rfl⟩

/-- C9 (amended): `get_latest_release_info` returns the configuration error
without issuing a network query exactly when the owner equals the placeholder
`"your_github_username"` AND the repo equals `"your_github_repository"`. -/
theorem config_placeholder_guard (cfg : Config)
    (net : Except String ReleaseData) :
    ((get_latest_release_info cfg net).result
          = Except.error "Repository configuration not set"
        ∧ (get_latest_release_info cfg net).queried = false)
      ↔ (cfg.repo_owner = "your_github_username"
          ∧ cfg.repo_name = "your_github_repository") := by
  unfold get_latest_release_info
  by_cases h1 : cfg.repo_owner = "your_github_username" <;>
    by_cases h2 : cfg.repo_name = "your_github_repository"
  · simp [h1, h2]
  all_goals
    cases net with
    | error e => simp [h1, h2]
    | ok rd =>
      cases hf : rd.assets.find? (fun a => a.name == cfg.asset_name) <;>
        simp [h1, h2, hf]

/-- C9 (witness): the amended guard evaluated at a configuration where both
fields are placeholders (rejected without query) — via the reverse direction
of the equivalence. -/
theorem config_placeholder_guard_witness :
    (get_latest_release_info
        { cfgS1 with repo_owner := "your_github_username",
                     repo_name := "your_github_repository" }
        (Except.ok rdSample)).result
      = Except.error "Repository configuration not set"
    ∧ (get_latest_release_info
        { cfgS1 with repo_owner := "your_github_username",
                     repo_name := "your_github_repository" }
        (Except.ok rdSample)).queried = false :=
  (config_placeholder_guard
      { cfgS1 with repo_owner := "your_github_username",
                   repo_name := "your_github_repository" }
      (Except.ok rdSample)).mpr ⟨rfl, rfl⟩

/-- C8: `get_status` is a total function — every manager state, filesystem and
network outcome yields a report — and when the embedded decision's fetch fails
(the throttle not applying), the failure surfaces as `needs_update = false`
with the error message as the reason and no `latest_*` fields, rather than as
an exception. -/
theorem get_status_fetch_error_is_nonfatal (cfg : Config) (fs : FS)
    (st : ManagerState) (now : Int) (net : Except String ReleaseData)
    (e : String)
    (hthr : ¬now - st.last_check_time < cfg.check_interval)
    (hfetch : (get_latest_release_info cfg net).result = Except.error e) :
    (get_status cfg fs st now net).2.needs_update = false
    ∧ (get_status cfg fs st now net).2.update_reason = e
    ∧ (get_status cfg fs st now net).2.latest_version = none
    ∧ (get_status cfg fs st now net).2.latest_published = none
    ∧ (get_status cfg fs st now net).2.latest_prerelease = none := by
  unfold get_status needs_update
  simp [hthr, hfetch]

/-- C8 (witness): a stale manager with a failing network fetch still receives
a full status report, carrying the error as the update reason. -/
theorem get_status_fetch_error_is_nonfatal_witness :
    ¬(5000 : Int) - stFresh.last_check_time < cfgS1.check_interval
    ∧ (get_latest_release_info cfgS1 (Except.error "boom")).result
        = Except.error "Network error: boom"
    ∧ (get_status cfgS1 fsWithOld stFresh 5000
        (Except.error "boom")).2.needs_update = false
    ∧ (get_status cfgS1 fsWithOld stFresh 5000
        (Except.error "boom")).2.update_reason = "Network error: boom" := by
  refine ⟨by decide, rfl, ?_⟩
  have h := get_status_fetch_error_is_nonfatal cfgS1 fsWithOld stFresh 5000
    (Except.error "boom") "Network error: boom" (by decide) rfl
  exact ⟨h.1, h.2.1⟩

/-- C3: if the in-progress flag is already set, `download_firmware` fails
immediately with the already-in-progress error and changes nothing — the flag
is left set for the running download; if the call acquires the flag, the flag
is cleared before it returns on the success path and on every failure path. -/
theorem download_firmware_flag_discipline (cfg : Config)
    (hashFn : List Nat → String) (fs : FS) (st : ManagerState)
    (relArg : Option ReleaseInfo) (env : DLEnv) :
    (st.is_checking = true →
      download_firmware cfg hashFn fs st relArg env
        = { fs := fs, state := st, success := false,
            message := "Download already in progress" })
    ∧ (st.is_checking = false →
      (download_firmware cfg hashFn fs st relArg env).state.is_checking
        = false) := by
  constructor
  · intro h
    unfold download_firmware
    simp [h]
  · intro h
    unfold download_firmware
    simp only [h, Bool.false_eq_true, if_false]
    cases hres : resolveRelease cfg relArg env.net with
    | error e => rfl
    | ok ri =>
      cases hstream : env.stream with
      | connectFail m => rfl
      | failAfter c m => rfl
      | ok chunks =>
        by_cases hsize : (streamWrite chunks).2 = ri.size
        · simp [hsize]
        · simp [hsize]

/-- C3 (witness): a busy manager rejects a second download unchanged, and an
idle manager's flag is clear again after a (successful) download. -/
theorem download_firmware_flag_discipline_witness :
    stBusy.is_checking = true
    ∧ download_firmware cfgS1 hashLen fsEmpty stBusy none envOk
        = { fs := fsEmpty, state := stBusy, success := false,
            message := "Download already in progress" }
    ∧ stFresh.is_checking = false
    ∧ (download_firmware cfgS1 hashLen fsEmpty stFresh none
        envOk).state.is_checking = false :=
  ⟨rfl,
   (download_firmware_flag_discipline cfgS1 hashLen fsEmpty stBusy none
      envOk).1 rfl,
   rfl,
   (download_firmware_flag_discipline cfgS1 hashLen fsEmpty stFresh none
      envOk).2 rfl⟩

/-- C6: a download whose streamed byte count differs from the expected asset
size deletes the temp file, fails with the incomplete-download message
reporting actual versus expected bytes, and leaves the prior artifact and
metadata untouched. -/
theorem download_firmware_size_mismatch (cfg : Config)
    (hashFn : List Nat → String) (fs : FS) (st : ManagerState)
    (relArg : Option ReleaseInfo) (env : DLEnv) (ri : ReleaseInfo)
    (chunks : List (List Nat))
    (hst : st.is_checking = false)
    (hres : resolveRelease cfg relArg env.net = Except.ok ri)
    (hstream : env.stream = StreamOutcome.ok chunks)
    (hsize : (streamWrite chunks).2 ≠ ri.size) :
    download_firmware cfg hashFn fs st relArg env
      = { fs := { fs with temp := none },
          state := { st with is_checking := false },
          success := false,
          message := "Download incomplete: " ++ toString (streamWrite chunks).2
            ++ "/" ++ toString ri.size ++ " bytes" } := by
  unfold download_firmware
  simp [hst, hres, hstream, hsize]

/-- C6 (witness): a stream delivering one byte where four were expected fails
with `"Download incomplete: 1/4 bytes"` and leaves the old artifact alone. -/
theorem download_firmware_size_mismatch_witness :
    stFresh.is_checking = false
    ∧ resolveRelease cfgS1 none envShort.net = Except.ok riSample
    ∧ envShort.stream = StreamOutcome.ok [[9]]
    ∧ (streamWrite [[9]]).2 ≠ riSample.size
    ∧ download_firmware cfgS1 hashLen fsWithOld stFresh none envShort
        = { fs := { fsWithOld with temp := none },
            state := { stFresh with is_checking := false },
            success := false,
            message := "Download incomplete: 1/4 bytes" } := by
  refine ⟨rfl, rfl, rfl, by decide, ?_⟩
  have h := download_firmware_size_mismatch cfgS1 hashLen fsWithOld stFresh
    none envShort riSample [[9]] rfl rfl rfl (by decide)
  exact h

/-- C4: starting with no temp file on disk, every failing `download_firmware`
call leaves the cached artifact and the metadata file unchanged, leaves no
temp file behind, leaves the in-memory `current_version` unchanged, and
reports the failure through the returned `(success, message)` pair (the
transition function is total — no input makes it raise). -/
theorem download_firmware_failure_preserves_cache (cfg : Config)
    (hashFn : List Nat → String) (fs : FS) (st : ManagerState)
    (relArg : Option ReleaseInfo) (env : DLEnv)
    (htemp : fs.temp = none)
    (hfail : (download_firmware cfg hashFn fs st relArg env).success
      = false) :
    (download_firmware cfg hashFn fs st relArg env).fs.firmware = fs.firmware
    ∧ (download_firmware cfg hashFn fs st relArg env).fs.metadata
        = fs.metadata
    ∧ (download_firmware cfg hashFn fs st relArg env).fs.temp = none
    ∧ (download_firmware cfg hashFn fs st relArg env).state.current_version
        = st.current_version := by
  unfold download_firmware at *
  by_cases hst : st.is_checking
  · simp [hst, htemp]
  · simp only [hst, Bool.false_eq_true, if_false] at *
    cases hres : resolveRelease cfg relArg env.net with
    | error e => simp [hres, htemp]
    | ok ri =>
      cases hstream : env.stream with
      | connectFail m => simp [hres, hstream]
      | failAfter c m => simp [hres, hstream]
      | ok chunks =>
        by_cases hsize : (streamWrite chunks).2 = ri.size
        · rw [hres, hstream] at hfail
          simp [hsize] at hfail
        · simp [hres, hstream, hsize]

/-- C4 (witness): a failing fetch inside a download leaves the old artifact,
metadata, version and a clean temp slot untouched. -/
theorem download_firmware_failure_preserves_cache_witness :
    fsWithOld.temp = none
    ∧ (download_firmware cfgS1 hashLen fsWithOld stFresh none
        envFetchFail).success = false
    ∧ (download_firmware cfgS1 hashLen fsWithOld stFresh none
        envFetchFail).fs.firmware = fsWithOld.firmware
    ∧ (download_firmware cfgS1 hashLen fsWithOld stFresh none
        envFetchFail).fs.metadata = fsWithOld.metadata
    ∧ (download_firmware cfgS1 hashLen fsWithOld stFresh none
        envFetchFail).fs.temp = none
    ∧ (download_firmware cfgS1 hashLen fsWithOld stFresh none
        envFetchFail).state.current_version = stFresh.current_version := by
  refine ⟨rfl, rfl, ?_⟩
  have h := download_firmware_failure_preserves_cache cfgS1 hashLen fsWithOld
    stFresh none envFetchFail rfl rfl
  exact h

/-- C5: every successful `download_firmware` call resolved some release, wrote
the artifact with the streamed content, persisted metadata carrying the
release's version, the call time, `last_check = now`, the asset size, the
content hash of the downloaded bytes, the release notes and the prerelease
flag, set the in-memory `current_version` to the release's version, and
returned a success message naming that version. -/
theorem download_firmware_success_postcondition (cfg : Config)
    (hashFn : List Nat → String) (fs : FS) (st : ManagerState)
    (relArg : Option ReleaseInfo) (env : DLEnv)
    (h : (download_firmware cfg hashFn fs st relArg env).success = true) :
    ∃ ri, resolveRelease cfg relArg env.net = Except.ok ri
      ∧ (download_firmware cfg hashFn fs st relArg env).fs.metadata
          = some { version := ri.version
                   downloaded_at := env.nowIso
                   last_check := env.now
                   size := ri.size
                   hash := hashFn (streamContent env.stream)
                   release_notes := ri.release_notes
                   prerelease := ri.prerelease }
      ∧ (download_firmware cfg hashFn fs st relArg env).fs.firmware
          = some { content := streamContent env.stream, mtime := env.now }
      ∧ (download_firmware cfg hashFn fs st relArg env).state.current_version
          = some ri.version
      ∧ (download_firmware cfg hashFn fs st relArg env).message
          = "Downloaded version " ++ ri.version := by
  unfold download_firmware at *
  by_cases hst : st.is_checking
  · simp [hst] at h
  · simp only [hst, Bool.false_eq_true, if_false] at *
    cases hres : resolveRelease cfg relArg env.net with
    | error e => rw [hres] at h; simp at h
    | ok ri =>
      rw [hres] at h
      cases hstream : env.stream with
      | connectFail m => rw [hstream] at h; simp at h
      | failAfter c m => rw [hstream] at h; simp at h
      | ok chunks =>
        rw [hstream] at h
        by_cases hsize : (streamWrite chunks).2 = ri.size
        · refine ⟨ri, rfl, ?_⟩
          simp [hres, hstream, hsize, streamContent]
        · simp [hsize] at h

/-- C5 (witness): a complete 4-byte download of `rdSample` succeeds, persists
the expected metadata, writes the artifact, updates the version in memory and
reports success. -/
theorem download_firmware_success_postcondition_witness :
    (download_firmware cfgS1 hashLen fsEmpty stFresh none envOk).success
        = true
    ∧ ∃ ri, resolveRelease cfgS1 none envOk.net = Except.ok ri
      ∧ (download_firmware cfgS1 hashLen fsEmpty stFresh none
          envOk).fs.metadata
          = some { version := ri.version
                   downloaded_at := envOk.nowIso
                   last_check := envOk.now
                   size := ri.size
                   hash := hashLen (streamContent envOk.stream)
                   release_notes := ri.release_notes
                   prerelease := ri.prerelease }
      ∧ (download_firmware cfgS1 hashLen fsEmpty stFresh none
          envOk).fs.firmware
          = some { content := streamContent envOk.stream, mtime := envOk.now }
      ∧ (download_firmware cfgS1 hashLen fsEmpty stFresh none
          envOk).state.current_version = some ri.version
      ∧ (download_firmware cfgS1 hashLen fsEmpty stFresh none envOk).message
          = "Downloaded version " ++ ri.version :=
  ⟨rfl,
   download_firmware_success_postcondition cfgS1 hashLen fsEmpty stFresh none
     envOk rfl⟩

/-- Metadata record of a hypothetical completed sample download (used by the
interruption counterexample; its values are irrelevant to the artifact file). -/
def metaSample : Metadata :=
  { version := "v1.2.0"
    downloaded_at := "2024-01-01T01:06:40"
    last_check := 4000
    size := 2
    hash := "2"
    release_notes := "notes"
    prerelease := false }

/-- C1 (counterexample): interrupting a download of new content `[2, 2]` over
an old artifact `[1, 1]` at the step after `os.unlink(self.firmware_path)` —
inside the claim's window, after the temp file is fully written and before the
rename — leaves NO artifact file at the firmware path: the visible artifact is
neither the old version in full nor the new one, and the unlink is a second
step (besides the rename) that mutates the visible artifact. -/
theorem download_interrupt_after_unlink_loses_artifact :
    (download_snapshots fsWithOld [[2, 2]] 4000 metaSample)[3]?
        = some { firmware := none
                 metadata := none
                 temp := some { content := [2, 2], mtime := 4000 } }
    ∧ fsWithOld.firmware = some { content := [1, 1], mtime := 0 }
    ∧ (none : Option FileData) ≠ some { content := [1, 1], mtime := 0 }
    ∧ (none : Option FileData) ≠ some { content := [2, 2], mtime := 4000 } :=
  ⟨rfl, rfl, by decide, by decide⟩

/-- C1 (amended): along every step of a download, the artifact file at the
firmware path is the previous artifact in full for every snapshot up to and
including the completed temp write, absent in the window between the
pre-rename `os.unlink` and the `os.rename`, and the new artifact in full from
the rename on — never a truncated or mixed file; the unlink and the rename
are the only steps that mutate the visible artifact. -/
theorem download_snapshots_firmware_trichotomy (fs0 : FS)
    (chunks : List (List Nat)) (mt : Int) (newMeta : Metadata) :
    (download_snapshots fs0 chunks mt newMeta).map (fun s => s.firmware)
      = List.replicate (chunks.length + 2) fs0.firmware
        ++ [none,
            some { content := (streamWrite chunks).1, mtime := mt },
            some { content := (streamWrite chunks).1, mtime := mt }] := by
  unfold download_snapshots
  simp only [List.map_cons, List.map_append, List.map_map]
  have hconst : ((fun s : FS => s.firmware) ∘ fun i : Nat =>
      ({ fs0 with
           temp := some { content := (streamWrite (chunks.take i)).1,
                          mtime := mt } } : FS))
      = fun _ => fs0.firmware := rfl
  rw [hconst]
  simp [List.replicate_succ]

/-- Cross-check tying the step model to the transition function: on the
success path, the filesystem `download_firmware` ends in occurs among the
snapshots of `download_snapshots` (it is the final one). -/
theorem download_firmware_final_fs_among_snapshots (cfg : Config)
    (hashFn : List Nat → String) (fs : FS) (st : ManagerState)
    (relArg : Option ReleaseInfo) (env : DLEnv) (ri : ReleaseInfo)
    (chunks : List (List Nat))
    (hst : st.is_checking = false)
    (hres : resolveRelease cfg relArg env.net = Except.ok ri)
    (hstream : env.stream = StreamOutcome.ok chunks)
    (hsize : (streamWrite chunks).2 = ri.size) :
    (download_firmware cfg hashFn fs st relArg env).fs
      ∈ download_snapshots fs chunks env.now
          { version := ri.version
            downloaded_at := env.nowIso
            last_check := env.now
            size := ri.size
            hash := hashFn (streamWrite chunks).1
            release_notes := ri.release_notes
            prerelease := ri.prerelease } := by
  unfold download_firmware download_snapshots
  simp [hst, hres, hstream, hsize, List.mem_append]
